import Mathlib

/-!
Verification of the duplicate-detection and merge engine of
`vcf-dupe-checker-ai.py` (harperreed/vcard-tools).

A vCard is modelled by its `contents` map as vobject exposes it: each of
the properties the script touches (`fn`, `n`, `email`, `tel`, `adr`,
`org`, `title`, `note`, `uid`) is a field.  Multi-valued properties are
lists of string values (vobject's `<prop>_list`); `hasattr(vcard, prop)`
is emptiness / `Option.isSome`, and `getattr(vcard, prop)` returns the
FIRST content line, which `setattr(merged, prop, ...)` installs as a
one-element list.  `uid` is carried by records on disk (the sibling tool
`vcf_uid_adder.py` assigns one per contact) but is not in the property
list that `merge_vcards` copies.

Python's `set()` iterates in unspecified order; the union step of
`merge_vcards` is modelled with `List.dedup`, which keeps exactly the
distinct values (first occurrence order).  All properties proved about
it are order-insensitive (membership, duplicate-freeness).
-/

structure VCard where
  fn : Option String := none
  n : Option String := none
  email : List String := []
  tel : List String := []
  adr : List String := []
  org : Option String := none
  title : Option String := none
  note : Option String := none
  uid : Option String := none
deriving DecidableEq, Repr

/-- Python `str.capitalize()`: first character upper-cased, the rest lower-cased. -/
def capitalizeWord (s : String) : String :=
  match s.toList with
  | [] => ""
  | c :: rest => String.mk (c.toUpper :: rest.map Char.toLower)

/-- `VCardHandler.guess_name_from_email`: take the local part before `@`,
split it on `.`, `_` or `-`, capitalize each part and join with spaces. -/
def guess_name_from_email (email : String) : String :=
  let localPart := (email.splitOn "@").headD ""
  let nameParts := localPart.split (fun c => c = '.' || c = '_' || c = '-')
  String.intercalate " " (nameParts.map capitalizeWord)

/-- `VCardHandler.extract_key_info`: name is `fn` if present else `''`;
email and tel are the FIRST entries of their lists (`vcard.email.value`,
`vcard.tel.value`) or `''`; an empty name is synthesized from the email
when one exists.  Returns `(name, email, tel)`. -/
def extract_key_info (vcard : VCard) : String × String × String :=
  let name := vcard.fn.getD ""
  let email := vcard.email.headD ""
  let tel := vcard.tel.headD ""
  let name2 := if name = "" ∧ email ≠ "" then guess_name_from_email email else name
  (name2, email, tel)

/-- Default scalar resolution of `copy_prop`: vcard1's value if it has the
property, else vcard2's. -/
def scalarDefault (x1 x2 : Option String) : Option String :=
  match x1 with
  | some v => some v
  | none => x2

/-- `copy_prop` for a scalar property.  The instruction dict is consulted
only when it is non-empty (Python truthiness of `{}`) and holds the
property; a choice of `vcard1`/`vcard2` copies that record's value when
present and otherwise leaves the property unset (no fallback); any other
choice string falls back to the default resolution. -/
def copyScalar : Option (List (String × String)) → String →
    Option String → Option String → Option String
  | none, _, x1, x2 => scalarDefault x1 x2
  | some [], _, x1, x2 => scalarDefault x1 x2
  | some (e :: rest), prop, x1, x2 =>
    match List.lookup prop (e :: rest) with
    | some choice =>
      if choice = "vcard1" then x1
      else if choice = "vcard2" then x2
      else scalarDefault x1 x2
    | none => scalarDefault x1 x2

/-- vobject `setattr(merged, prop, getattr(v, prop))` on a multi-valued
property: installs the FIRST content line as a one-element list. -/
def headSingleton : List String → List String
  | [] => []
  | x :: _ => [x]

/-- Default multi-valued resolution of `copy_prop` (first line of vcard1
if it has the property, else of vcard2). -/
def multiDefault (l1 l2 : List String) : List String :=
  if l1.isEmpty then headSingleton l2 else headSingleton l1

/-- `copy_prop` for a multi-valued property: what `merged.contents[prop]`
holds after the scalar-style copy step, before the union loop appends. -/
def copyMulti (instr : Option (List (String × String))) (prop : String)
    (l1 l2 : List String) : List String :=
  match instr with
  | some l =>
    if l.isEmpty then multiDefault l1 l2
    else
      match List.lookup prop l with
      | some choice =>
        if choice = "vcard1" then headSingleton l1
        else if choice = "vcard2" then headSingleton l2
        else multiDefault l1 l2
      | none => multiDefault l1 l2
  | none => multiDefault l1 l2

/-- The union loop of `merge_vcards`: `values = set()` updated with the
string values of both records' lists, then each distinct value appended. -/
def unionValues (l1 l2 : List String) : List String :=
  (l1 ++ l2).dedup

/-- The final `fn` fix-up of `merge_vcards`: if the merged record has no
`fn`, synthesize one from `extract_key_info` (name if non-empty, else the
email, possibly empty). -/
def fix_fn (m : VCard) : VCard :=
  if m.fn.isSome then m
  else
    let info := extract_key_info m
    { m with fn := some (if info.1 ≠ "" then info.1 else info.2.1) }

/-- `VCardHandler.merge_vcards`: builds a fresh `vobject.vCard()`, runs
`copy_prop` over `fn, n, email, tel, adr, org, title, note`, appends the
union of values of each multi-valued property, and fixes up a missing
`fn`.  `uid` is not in the copied property list, so the fresh record has
none. -/
def merge_vcards (vcard1 vcard2 : VCard)
    (instr : Option (List (String × String))) : VCard :=
  let fn0 := copyScalar instr "fn" vcard1.fn vcard2.fn
  let n0 := copyScalar instr "n" vcard1.n vcard2.n
  let org0 := copyScalar instr "org" vcard1.org vcard2.org
  let title0 := copyScalar instr "title" vcard1.title vcard2.title
  let note0 := copyScalar instr "note" vcard1.note vcard2.note
  let email0 := copyMulti instr "email" vcard1.email vcard2.email ++
    unionValues vcard1.email vcard2.email
  let tel0 := copyMulti instr "tel" vcard1.tel vcard2.tel ++
    unionValues vcard1.tel vcard2.tel
  let adr0 := copyMulti instr "adr" vcard1.adr vcard2.adr ++
    unionValues vcard1.adr vcard2.adr
  fix_fn { fn := fn0, n := n0, email := email0, tel := tel0, adr := adr0,
           org := org0, title := title0, note := note0, uid := none }

/-- The comparison document `find_duplicates_ml` builds for one record:
`f"{name} {email} {tel}"` over `extract_key_info`'s result. -/
def build_comparison_document (vcard : VCard) : String :=
  let info := extract_key_info vcard
  info.1 ++ " " ++ info.2.1 ++ " " ++ info.2.2

/-- Case-insensitive normalization of a string (the normalization the
spec's union property and the spec's comparison document refer to):
every character lower-cased. -/
def lowerString (s : String) : String :=
  String.mk (s.toList.map Char.toLower)

/-- The spec's wording of the comparison document (for comparison with
`build_comparison_document`): the comparison name, ALL email addresses
and ALL phone numbers, whitespace-joined and lower-cased. -/
def specComparisonDocument (vcard : VCard) : String :=
  lowerString (String.intercalate " "
    ((extract_key_info vcard).1 :: (vcard.email ++ vcard.tel)))

/-- Candidate retention in `find_duplicates_ml` (line 275):
`sim > self.config['similarity_threshold']`, strictly greater. -/
def is_candidate (similarity_threshold sim : ℚ) : Bool :=
  sim > similarity_threshold

/-- The three-way decision of `process_duplicates` (lines 326–343):
`similarity >= auto_merge_threshold` auto-merges, else
`similarity >= ai_decision_threshold` consults the AI, else the pair is
skipped. -/
inductive Tier where
  | AutoMerge
  | AIDecision
  | Skip
deriving DecidableEq, Repr

def classifyTier (auto_merge_threshold ai_decision_threshold sim : ℚ) : Tier :=
  if sim ≥ auto_merge_threshold then Tier.AutoMerge
  else if sim ≥ ai_decision_threshold then Tier.AIDecision
  else Tier.Skip

/-- One line of the AI response parsed by `get_merge_decision`: lines
containing a colon are unpacked as `field, choice = line.split(':')` — a
line with more than one colon makes the unpacking raise (too many values),
modelled as an error; a recognized choice (`vcard1`/`vcard2`, after
strip/lower) yields an instruction entry, anything else is skipped. -/
def parseMergeLine (line : String) : Except String (Option (String × String)) :=
  match line.splitOn ":" with
  | [_] => Except.ok none
  | [field, choice] =>
    let f := field.trim.toLower
    let c := choice.trim.toLower
    if c = "vcard1" ∨ c = "vcard2" then Except.ok (some (f, c))
    else Except.ok none
  | _ => Except.error "too many values to unpack"

/-- The instruction-collecting loop over `lines[1:]`; the first raised
error aborts the whole parse (caught by the outer handler). -/
def parseMergeLines : List String → Except String (List (String × String))
  | [] => Except.ok []
  | l :: ls =>
    match parseMergeLine l with
    | Except.error e => Except.error e
    | Except.ok entry =>
      match parseMergeLines ls with
      | Except.error e => Except.error e
      | Except.ok rest =>
        match entry with
        | some kv => Except.ok (kv :: rest)
        | none => Except.ok rest

/-- `AIAssistant.get_merge_decision`, with the external chat-completion
call abstracted as `call : Except String String` (an `error` is any
exception raised by the network request or response access).  The whole
body runs inside one `try`: a failed call, or a parse error in the
instruction loop, is caught and mapped to
`(False, None, str(e))`.  Otherwise the verdict is whether the first line
of the stripped response starts with `"1. yes"` (case-insensitive), with
the collected instructions. -/
def get_merge_decision (call : Except String String) :
    Bool × Option (List (String × String)) × String :=
  match call with
  | Except.error e => (false, none, e)
  | Except.ok response =>
    let ai := response.trim
    let lines := ai.splitOn "\n"
    let shouldMerge := (lines.headD "").toLower.startsWith "1. yes"
    if shouldMerge then
      match parseMergeLines lines.tail with
      | Except.error e => (false, none, e)
      | Except.ok instrs => (true, some instrs, ai)
    else (false, some [], ai)

/-- The values a user YAML file may supply for the settings the script
reads; absent keys fall back to `default_config`. -/
structure UserConfig where
  similarity_threshold : Option ℚ := none
  ai_decision_threshold : Option ℚ := none
  auto_merge_threshold : Option ℚ := none
  keep_originals : Option Bool := none
  merged_dir : Option String := none
  openai_model : Option String := none
deriving DecidableEq, Repr

/-- The loaded configuration.  `auto_merge_threshold` is `Option` because
`Config.default_config` does not define it: it exists only when the user
file supplies it (accessing it otherwise raises `KeyError` at use time,
during processing). -/
structure ConfigData where
  similarity_threshold : ℚ
  ai_decision_threshold : ℚ
  auto_merge_threshold : Option ℚ
  keep_originals : Bool
  merged_dir : String
  openai_model : String
deriving DecidableEq, Repr

/-- `Config.default_config` of the script (note: no `auto_merge_threshold`,
and `ai_decision_threshold = similarity_threshold = 0.8`). -/
def default_config : ConfigData :=
  { similarity_threshold := 4/5
    ai_decision_threshold := 4/5
    auto_merge_threshold := none
    keep_originals := false
    merged_dir := "merged_vcards"
    openai_model := "gpt-3.5-turbo" }

/-- `Config.load_config`: a missing file (`none`) yields the defaults; an
existing file is merged over them, `{**default_config, **user_config}`.
No validation of any kind is performed on the resulting values. -/
def load_config (user : Option UserConfig) : ConfigData :=
  match user with
  | none => default_config
  | some u =>
    { similarity_threshold := u.similarity_threshold.getD default_config.similarity_threshold
      ai_decision_threshold := u.ai_decision_threshold.getD default_config.ai_decision_threshold
      auto_merge_threshold := u.auto_merge_threshold
      keep_originals := u.keep_originals.getD default_config.keep_originals
      merged_dir := u.merged_dir.getD default_config.merged_dir
      openai_model := u.openai_model.getD default_config.openai_model }

/-- Presence of the files of one candidate pair, in the active directory
and in the quarantine (merge) directory: the primary original, the
similar original, and the merged output file. -/
structure FileState where
  activePrimary : Bool
  activeSimilar : Bool
  activeMerged : Bool
  quarPrimary : Bool
  quarSimilar : Bool
deriving DecidableEq, Repr

/-- `DuplicateProcessor.move_original_files`: rename the primary file into
the merge directory, then the similar file, both inside a single `try`.
Each rename either succeeds (the file changes directory) or raises
leaving its file in place; a raise from the first rename skips the second.
The exception is caught and logged; the returned flag records whether the
error branch ran. -/
def move_original_files (renamePrimaryFails renameSimilarFails : Bool)
    (s : FileState) : FileState × Bool :=
  if renamePrimaryFails then (s, true)
  else
    let s1 : FileState := { s with activePrimary := false, quarPrimary := true }
    if renameSimilarFails then (s1, true)
    else ({ s1 with activeSimilar := false, quarSimilar := true }, false)

/-- `DuplicateProcessor.keep_original_copy`: copy the primary's file from
the merge directory back into the active directory.  The copy raises (and
is caught) when the source file is absent from the merge directory or the
filesystem fails; on success the active directory regains the primary and
the quarantined copy remains. -/
def keep_original_copy (copyFails : Bool) (s : FileState) : FileState :=
  if copyFails || !s.quarPrimary then s
  else { s with activePrimary := true }

/-- The per-pair tail of `process_duplicates`: a successful
`perform_merge` writes the merged file into the active directory, then
`move_original_files` runs unconditionally, then `keep_original_copy`
runs when the merge was not successful.  The four flags are the merge
outcome and the possible filesystem failures of the two renames and the
copy. -/
def process_pair_files (mergeOk failP failS failC : Bool) : FileState :=
  let s0 : FileState :=
    { activePrimary := true, activeSimilar := true, activeMerged := false
      quarPrimary := false, quarSimilar := false }
  let s1 := if mergeOk then { s0 with activeMerged := true } else s0
  let s2 := (move_original_files failP failS s1).1
  if mergeOk then s2 else keep_original_copy failC s2

/-! Concrete records and configurations used as test inputs below. -/

/-- Concrete pair for the email-union analysis: the same address in two
different letter cases. -/
def caseA : VCard := { fn := some "Jane", email := ["A@X.COM"] }

def caseB : VCard := { fn := some "Jane", email := ["a@x.com"] }

/-- A user configuration whose thresholds violate the ordering
`auto_merge_threshold > ai_decision_threshold > similarity_threshold`. -/
def bad_user_config : UserConfig :=
  { similarity_threshold := some (9/10)
    ai_decision_threshold := some (4/5)
    auto_merge_threshold := some (7/10) }

/-- A record with two email addresses and two phone numbers. -/
def multiContact : VCard :=
  { fn := some "john smith"
    email := ["john@a.com", "jj@b.com"]
    tel := ["111", "222"] }

/-- A record with a display name and one email. -/
def janeRecord : VCard := { fn := some "Jane", email := ["a@x.com"] }

/-- A pair of records carrying distinct persistent identifiers. -/
def uidRecord1 : VCard := { fn := some "A", uid := some "uid-1" }

def uidRecord2 : VCard := { fn := some "B", uid := some "uid-2" }

/-- A record lacking `org`, paired with one that has it, for the
instruction-fallback analysis. -/
def orgLess : VCard := { fn := some "P" }

def orgFull : VCard := { fn := some "S", org := some "ACME" }

section HelperLemmas

@[simp] lemma fix_fn_n (m : VCard) : (fix_fn m).n = m.n := by
  unfold fix_fn; split <;> rfl

@[simp] lemma fix_fn_email (m : VCard) : (fix_fn m).email = m.email := by
  unfold fix_fn; split <;> rfl

@[simp] lemma fix_fn_tel (m : VCard) : (fix_fn m).tel = m.tel := by
  unfold fix_fn; split <;> rfl

@[simp] lemma fix_fn_adr (m : VCard) : (fix_fn m).adr = m.adr := by
  unfold fix_fn; split <;> rfl

@[simp] lemma fix_fn_org (m : VCard) : (fix_fn m).org = m.org := by
  unfold fix_fn; split <;> rfl

@[simp] lemma fix_fn_title (m : VCard) : (fix_fn m).title = m.title := by
  unfold fix_fn; split <;> rfl

@[simp] lemma fix_fn_note (m : VCard) : (fix_fn m).note = m.note := by
  unfold fix_fn; split <;> rfl

@[simp] lemma fix_fn_uid (m : VCard) : (fix_fn m).uid = m.uid := by
  unfold fix_fn; split <;> rfl

lemma fix_fn_of_fn_isSome (m : VCard) (h : m.fn.isSome) : fix_fn m = m := by
  unfold fix_fn; rw [if_pos h]

lemma merge_vcards_email (v1 v2 : VCard) (i : Option (List (String × String))) :
    (merge_vcards v1 v2 i).email =
      copyMulti i "email" v1.email v2.email ++ unionValues v1.email v2.email := by
  unfold merge_vcards; rw [fix_fn_email]

lemma merge_vcards_tel (v1 v2 : VCard) (i : Option (List (String × String))) :
    (merge_vcards v1 v2 i).tel =
      copyMulti i "tel" v1.tel v2.tel ++ unionValues v1.tel v2.tel := by
  unfold merge_vcards; rw [fix_fn_tel]

lemma merge_vcards_adr (v1 v2 : VCard) (i : Option (List (String × String))) :
    (merge_vcards v1 v2 i).adr =
      copyMulti i "adr" v1.adr v2.adr ++ unionValues v1.adr v2.adr := by
  unfold merge_vcards; rw [fix_fn_adr]

lemma merge_vcards_n (v1 v2 : VCard) (i : Option (List (String × String))) :
    (merge_vcards v1 v2 i).n = copyScalar i "n" v1.n v2.n := by
  unfold merge_vcards; rw [fix_fn_n]

lemma merge_vcards_org (v1 v2 : VCard) (i : Option (List (String × String))) :
    (merge_vcards v1 v2 i).org = copyScalar i "org" v1.org v2.org := by
  unfold merge_vcards; rw [fix_fn_org]

lemma merge_vcards_title (v1 v2 : VCard) (i : Option (List (String × String))) :
    (merge_vcards v1 v2 i).title = copyScalar i "title" v1.title v2.title := by
  unfold merge_vcards; rw [fix_fn_title]

lemma merge_vcards_note (v1 v2 : VCard) (i : Option (List (String × String))) :
    (merge_vcards v1 v2 i).note = copyScalar i "note" v1.note v2.note := by
  unfold merge_vcards; rw [fix_fn_note]

lemma merge_vcards_uid (v1 v2 : VCard) (i : Option (List (String × String))) :
    (merge_vcards v1 v2 i).uid = none := by
  unfold merge_vcards; rw [fix_fn_uid]

lemma mem_headSingleton {x : String} {l : List String}
    (h : x ∈ headSingleton l) : x ∈ l := by
  cases l with
  | nil => simp [headSingleton] at h
  | cons a t =>
    simp only [headSingleton, List.mem_singleton] at h
    simp [h]

lemma mem_multiDefault {x : String} {l1 l2 : List String}
    (h : x ∈ multiDefault l1 l2) : x ∈ l1 ∨ x ∈ l2 := by
  unfold multiDefault at h
  split at h
  · exact Or.inr (mem_headSingleton h)
  · exact Or.inl (mem_headSingleton h)

lemma mem_copyMulti {x : String} (instr : Option (List (String × String)))
    (p : String) {l1 l2 : List String}
    (h : x ∈ copyMulti instr p l1 l2) : x ∈ l1 ∨ x ∈ l2 := by
  unfold copyMulti at h
  rcases instr with _ | l
  · exact mem_multiDefault h
  · simp only at h
    split at h
    · exact mem_multiDefault h
    · split at h
      · split at h
        · exact Or.inl (mem_headSingleton h)
        · split at h
          · exact Or.inr (mem_headSingleton h)
          · exact mem_multiDefault h
      · exact mem_multiDefault h

lemma mem_unionValues {x : String} {l1 l2 : List String} :
    x ∈ unionValues l1 l2 ↔ (x ∈ l1 ∨ x ∈ l2) := by
  simp [unionValues, List.mem_dedup]

lemma mem_copyMulti_append {x : String}
    (instr : Option (List (String × String))) (p : String)
    (l1 l2 : List String) :
    x ∈ copyMulti instr p l1 l2 ++ unionValues l1 l2 ↔ (x ∈ l1 ∨ x ∈ l2) := by
  constructor
  · intro h
    rcases List.mem_append.mp h with h | h
    · exact mem_copyMulti instr p h
    · exact mem_unionValues.mp h
  · intro h
    exact List.mem_append.mpr (Or.inr (mem_unionValues.mpr h))

lemma scalarDefault_self (x : Option String) : scalarDefault x x = x := by
  cases x <;> rfl

lemma merge_vcards_fn_of_isSome (v1 v2 : VCard)
    (i : Option (List (String × String)))
    (h : (copyScalar i "fn" v1.fn v2.fn).isSome) :
    (merge_vcards v1 v2 i).fn = copyScalar i "fn" v1.fn v2.fn := by
  unfold merge_vcards
  rw [fix_fn_of_fn_isSome]
  exact h

lemma copyScalar_choice1_none (instr : List (String × String)) (p : String)
    {x1 x2 : Option String} (hlk : List.lookup p instr = some "vcard1")
    (h1 : x1 = none) : copyScalar (some instr) p x1 x2 = none := by
  cases instr with
  | nil => simp [List.lookup] at hlk
  | cons hd tl =>
    simp [copyScalar, hlk, h1]

lemma copyScalar_choice2_none (instr : List (String × String)) (p : String)
    {x1 x2 : Option String} (hlk : List.lookup p instr = some "vcard2")
    (h2 : x2 = none) : copyScalar (some instr) p x1 x2 = none := by
  cases instr with
  | nil => simp [List.lookup] at hlk
  | cons hd tl =>
    simp [copyScalar, hlk, h2]

end HelperLemmas

/-- Claim C1: for every processed candidate pair, after the relocation
step completes, the quarantine bucket together with the active directory
holds at least one file representing each of the two original contacts
(the original copy or the merged record), whatever the outcomes of the
merge write, the two renames, and the restore copy. -/
theorem relocation_no_loss : ∀ (mergeOk failP failS failC : Bool),
    ((process_pair_files mergeOk failP failS failC).activePrimary ||
     (process_pair_files mergeOk failP failS failC).quarPrimary ||
     (process_pair_files mergeOk failP failS failC).activeMerged) = true ∧
    ((process_pair_files mergeOk failP failS failC).activeSimilar ||
     (process_pair_files mergeOk failP failS failC).quarSimilar ||
     (process_pair_files mergeOk failP failS failC).activeMerged) = true := by
  decide

/-- Claim C2: decision tiers are chosen with `>=` comparisons on the upper
edges; with thresholds auto=0.95, ai=0.8, similarity=0.7, a score of 0.95
auto-merges, 0.94999 goes to the AI tier, 0.75 is skipped, and 0.7 exactly
is not retained as a candidate (retention needs strict `>`). -/
theorem classify_threshold_tiers :
    (∀ a i s : ℚ, a ≤ s → classifyTier a i s = Tier.AutoMerge) ∧
    (∀ a i s : ℚ, i ≤ s → s < a → classifyTier a i s = Tier.AIDecision) ∧
    (∀ a i s : ℚ, s < i → s < a → classifyTier a i s = Tier.Skip) ∧
    classifyTier (19/20) (4/5) (19/20) = Tier.AutoMerge ∧
    classifyTier (19/20) (4/5) (94999/100000) = Tier.AIDecision ∧
    classifyTier (19/20) (4/5) (3/4) = Tier.Skip ∧
    is_candidate (7/10) (7/10) = false := by
  refine ⟨?_, ?_, ?_, ?_, ?_, ?_, ?_⟩
  · intro a i s h
    unfold classifyTier
    rw [if_pos h]
  · intro a i s h1 h2
    unfold classifyTier
    rw [if_neg (not_le.mpr h2), if_pos h1]
  · intro a i s h1 h2
    unfold classifyTier
    rw [if_neg (not_le.mpr h2), if_neg (not_le.mpr h1)]
  · simp only [classifyTier]; norm_num
  · simp only [classifyTier]; norm_num
  · simp only [classifyTier]; norm_num
  · simp only [is_candidate]; norm_num

theorem classify_threshold_tiers_witness :
    classifyTier (19/20) (4/5) 1 = Tier.AutoMerge ∧
    classifyTier (19/20) (4/5) (9/10) = Tier.AIDecision ∧
    classifyTier (19/20) (4/5) (1/2) = Tier.Skip :=
  ⟨classify_threshold_tiers.1 (19/20) (4/5) 1 (by norm_num),
   classify_threshold_tiers.2.1 (19/20) (4/5) (9/10) (by norm_num) (by norm_num),
   classify_threshold_tiers.2.2.1 (19/20) (4/5) (1/2) (by norm_num) (by norm_num)⟩

/-- Claim C3: if the external advisory call fails in any way (the call
raises, or parsing the response raises), `get_merge_decision` returns
`should_merge = false`; it never returns a merge verdict on a failed
call. -/
theorem advisory_failure_declines : ∀ (call : Except String String),
    ((∃ e, call = Except.error e) ∨
      (∃ r e, call = Except.ok r ∧
        parseMergeLines ((r.trim).splitOn "\n").tail = Except.error e)) →
    (get_merge_decision call).1 = false := by
  intro call h
  rcases h with ⟨e, rfl⟩ | ⟨r, e, rfl, hpe⟩
  · rfl
  · simp only [get_merge_decision, hpe]
    split <;> rfl

theorem advisory_failure_declines_witness :
    (get_merge_decision (Except.error "connection timed out")).1 = false :=
  advisory_failure_declines (Except.error "connection timed out")
    (Or.inl ⟨"connection timed out", rfl⟩)

/-- Claim C10: when renaming the primary file raises, the similar file is
not moved at all (it keeps whatever location it had, in particular it
stays in the active directory), the error is logged rather than
propagated, and the pair's processing continues into the fallback step. -/
theorem move_primary_failure_leaves_similar :
    (∀ (failS : Bool) (s : FileState),
      move_original_files true failS s = (s, true)) ∧
    (∀ (failS failC : Bool),
      (process_pair_files false true failS failC).activeSimilar = true ∧
      (process_pair_files false true failS failC).quarSimilar = false) := by
  constructor
  · intro failS s; rfl
  · decide

/-- Counterexample to claim C4: merging records whose email lists hold the
same address in different cases keeps both spellings, and even repeats the
default source's first value, so the merged entries are not
duplicate-free after case-insensitive normalization. -/
theorem merged_email_not_case_deduped :
    (merge_vcards caseA caseB none).email = ["A@X.COM", "A@X.COM", "a@x.com"] ∧
    ¬ ((merge_vcards caseA caseB none).email.map lowerString).Nodup := by
  constructor
  · decide
  · decide

/-- Claim C4 (amended): for every pair of records and every merge
instruction, the VALUE SET of each multi-valued field (email, tel, adr)
of the merged record is exactly the union of the two records' values —
instructions never restrict a multi-valued field to one source.
De-duplication is by exact string value only (and the list additionally
repeats the first value installed by the copy step), not by
case-insensitive normalization. -/
theorem merged_multivalue_union :
    ∀ (v1 v2 : VCard) (instr : Option (List (String × String))) (x : String),
    (x ∈ (merge_vcards v1 v2 instr).email ↔ (x ∈ v1.email ∨ x ∈ v2.email)) ∧
    (x ∈ (merge_vcards v1 v2 instr).tel ↔ (x ∈ v1.tel ∨ x ∈ v2.tel)) ∧
    (x ∈ (merge_vcards v1 v2 instr).adr ↔ (x ∈ v1.adr ∨ x ∈ v2.adr)) := by
  intro v1 v2 instr x
  refine ⟨?_, ?_, ?_⟩
  · rw [merge_vcards_email]
    exact mem_copyMulti_append instr "email" v1.email v2.email
  · rw [merge_vcards_tel]
    exact mem_copyMulti_append instr "tel" v1.tel v2.tel
  · rw [merge_vcards_adr]
    exact mem_copyMulti_append instr "adr" v1.adr v2.adr

/-- Counterexample to claim C5: a configuration with inverted threshold
ordering is loaded verbatim — no check runs, no failure occurs — and the
decision logic then happily classifies with it (0.75 "auto-merges" under
the inverted thresholds). -/
theorem config_ordering_not_enforced :
    load_config (some bad_user_config) =
      { similarity_threshold := 9/10
        ai_decision_threshold := 4/5
        auto_merge_threshold := some (7/10)
        keep_originals := false
        merged_dir := "merged_vcards"
        openai_model := "gpt-3.5-turbo" } ∧
    ¬ ((7 : ℚ)/10 > 4/5 ∧ (4 : ℚ)/5 > 9/10) ∧
    classifyTier (7/10) (4/5) (3/4) = Tier.AutoMerge := by
  refine ⟨rfl, by norm_num, ?_⟩
  simp only [classifyTier]
  norm_num

/-- Claim C5 (amended): configuration load performs no validation at all:
whatever thresholds the user file supplies are accepted verbatim,
regardless of ordering, and the run proceeds with them.  (There is no
`ConfigError`; the defaults themselves violate the ordering, having
`ai_decision_threshold = similarity_threshold` and no
`auto_merge_threshold` key at all.) -/
theorem load_config_accepts_any_thresholds :
    (∀ (u : UserConfig) (qa qi qs : ℚ),
      u.auto_merge_threshold = some qa →
      u.ai_decision_threshold = some qi →
      u.similarity_threshold = some qs →
      (load_config (some u)).auto_merge_threshold = some qa ∧
      (load_config (some u)).ai_decision_threshold = qi ∧
      (load_config (some u)).similarity_threshold = qs) ∧
    (load_config none).auto_merge_threshold = none ∧
    (load_config none).ai_decision_threshold = (load_config none).similarity_threshold := by
  refine ⟨?_, rfl, rfl⟩
  intro u qa qi qs ha hi hs
  refine ⟨?_, ?_, ?_⟩ <;> simp [load_config, ha, hi, hs]

theorem load_config_accepts_any_thresholds_witness :
    (load_config (some bad_user_config)).auto_merge_threshold = some (7/10) ∧
    (load_config (some bad_user_config)).ai_decision_threshold = 4/5 ∧
    (load_config (some bad_user_config)).similarity_threshold = 9/10 :=
  load_config_accepts_any_thresholds.1 bad_user_config (7/10) (4/5) (9/10)
    rfl rfl rfl

/-- Counterexample to claim C6: merging two records that each carry a
persistent identifier (`uid`, the property `vcf_uid_adder.py` assigns)
yields a record that carries NO identifier at all — `uid` is not among
the copied properties and nothing assigns a fresh one. -/
theorem merged_record_has_no_identifier :
    ((merge_vcards uidRecord1 uidRecord2 none).uid).isSome = false := by
  decide

/-- Claim C6 (amended): the merge result is a freshly constructed record,
not a mutation of either input, but it carries no identifier of its own:
its `uid` is always absent, whatever the inputs carry — in particular it
never equals either input's identifier. -/
theorem merged_uid_absent :
    ∀ (v1 v2 : VCard) (instr : Option (List (String × String))),
    (merge_vcards v1 v2 instr).uid = none ∧
    (∀ u : String, v1.uid = some u → ¬ (merge_vcards v1 v2 instr).uid = some u) ∧
    (∀ u : String, v2.uid = some u → ¬ (merge_vcards v1 v2 instr).uid = some u) := by
  intro v1 v2 instr
  have h := merge_vcards_uid v1 v2 instr
  refine ⟨h, ?_, ?_⟩ <;>
  · intro u _ hc
    rw [h] at hc
    exact Option.noConfusion hc

theorem merged_uid_absent_witness :
    (merge_vcards uidRecord1 uidRecord2 none).uid = none ∧
    ¬ (merge_vcards uidRecord1 uidRecord2 none).uid = some "uid-1" :=
  ⟨(merged_uid_absent uidRecord1 uidRecord2 none).1,
   (merged_uid_absent uidRecord1 uidRecord2 none).2.1 "uid-1" rfl⟩

/-- Counterexample to claim C7: for a record with two email addresses and
two phone numbers, the document actually built uses only the FIRST email
and the FIRST phone number (and is not lower-cased at construction),
differing from the spec's all-values lower-cased blob. -/
theorem comparison_document_first_only :
    build_comparison_document multiContact = "john smith john@a.com 111" ∧
    specComparisonDocument multiContact
      = "john smith john@a.com jj@b.com 111 222" ∧
    build_comparison_document multiContact ≠ specComparisonDocument multiContact := by
  refine ⟨by decide, by decide, by decide⟩

/-- Claim C7 (amended): the comparison document of a record is built from
its comparison name, its FIRST email address and its FIRST phone number
only — entries beyond the first of either list never influence it (and no
lower-casing happens at construction; normalization is left to the
downstream vectorizer). -/
theorem comparison_document_uses_heads :
    ∀ (v : VCard), build_comparison_document v =
      build_comparison_document
        { v with email := v.email.take 1, tel := v.tel.take 1 } := by
  intro v
  rcases v with ⟨fn, n, email, tel, adr, org, title, note, uid⟩
  cases email <;> cases tel <;> rfl

/-- Counterexample to claim C8: self-merging a record with one email
address duplicates that address — the merged field content is not
identical to the input's. -/
theorem self_merge_duplicates_first_value :
    (merge_vcards janeRecord janeRecord none).email = ["a@x.com", "a@x.com"] ∧
    janeRecord.email = ["a@x.com"] ∧
    (merge_vcards janeRecord janeRecord none).email ≠ janeRecord.email := by
  refine ⟨by decide, rfl, by decide⟩

/-- Claim C8 (amended): self-merge (no instruction) preserves every
scalar field exactly and every multi-valued field as a SET of values
(and the display name, when the record has one); it does not drop any
value, but the first value of a non-empty multi-valued field appears
twice in the merged list, so field content is identical only up to
duplicate entries. -/
theorem self_merge_preserves_content :
    ∀ (R : VCard) (nm : String), R.fn = some nm →
    ((merge_vcards R R none).fn = R.fn ∧
     (merge_vcards R R none).n = R.n ∧
     (merge_vcards R R none).org = R.org ∧
     (merge_vcards R R none).title = R.title ∧
     (merge_vcards R R none).note = R.note) ∧
    ((∀ x, x ∈ (merge_vcards R R none).email ↔ x ∈ R.email) ∧
     (∀ x, x ∈ (merge_vcards R R none).tel ↔ x ∈ R.tel) ∧
     (∀ x, x ∈ (merge_vcards R R none).adr ↔ x ∈ R.adr)) := by
  intro R nm hfn
  have hfn' : copyScalar none "fn" R.fn R.fn = R.fn := scalarDefault_self R.fn
  refine ⟨⟨?_, ?_, ?_, ?_, ?_⟩, ?_, ?_, ?_⟩
  · rw [merge_vcards_fn_of_isSome R R none (by rw [hfn', hfn]; rfl), hfn']
  · rw [merge_vcards_n]; exact scalarDefault_self R.n
  · rw [merge_vcards_org]; exact scalarDefault_self R.org
  · rw [merge_vcards_title]; exact scalarDefault_self R.title
  · rw [merge_vcards_note]; exact scalarDefault_self R.note
  · intro x
    rw [merge_vcards_email]
    simpa using mem_copyMulti_append (x := x) none "email" R.email R.email
  · intro x
    rw [merge_vcards_tel]
    simpa using mem_copyMulti_append (x := x) none "tel" R.tel R.tel
  · intro x
    rw [merge_vcards_adr]
    simpa using mem_copyMulti_append (x := x) none "adr" R.adr R.adr

theorem self_merge_preserves_content_witness :
    (merge_vcards janeRecord janeRecord none).fn = janeRecord.fn ∧
    (merge_vcards janeRecord janeRecord none).org = janeRecord.org :=
  ⟨((self_merge_preserves_content janeRecord "Jane" rfl).1).1,
   ((self_merge_preserves_content janeRecord "Jane" rfl).1).2.2.1⟩

/-- Claim C9: when the instruction names a source record for a scalar
field (`org`, `title` or `note`) and the named record lacks that field,
the merged record omits the field entirely — no fallback to the other
record's value. -/
theorem scalar_choice_missing_omits :
    ∀ (v1 v2 : VCard) (instr : List (String × String)),
    (List.lookup "org" instr = some "vcard1" → v1.org = none →
      (merge_vcards v1 v2 (some instr)).org = none) ∧
    (List.lookup "org" instr = some "vcard2" → v2.org = none →
      (merge_vcards v1 v2 (some instr)).org = none) ∧
    (List.lookup "title" instr = some "vcard1" → v1.title = none →
      (merge_vcards v1 v2 (some instr)).title = none) ∧
    (List.lookup "title" instr = some "vcard2" → v2.title = none →
      (merge_vcards v1 v2 (some instr)).title = none) ∧
    (List.lookup "note" instr = some "vcard1" → v1.note = none →
      (merge_vcards v1 v2 (some instr)).note = none) ∧
    (List.lookup "note" instr = some "vcard2" → v2.note = none →
      (merge_vcards v1 v2 (some instr)).note = none) := by
  intro v1 v2 instr
  refine ⟨?_, ?_, ?_, ?_, ?_, ?_⟩ <;> intro hlk hnone
  · rw [merge_vcards_org]; exact copyScalar_choice1_none instr "org" hlk hnone
  · rw [merge_vcards_org]; exact copyScalar_choice2_none instr "org" hlk hnone
  · rw [merge_vcards_title]; exact copyScalar_choice1_none instr "title" hlk hnone
  · rw [merge_vcards_title]; exact copyScalar_choice2_none instr "title" hlk hnone
  · rw [merge_vcards_note]; exact copyScalar_choice1_none instr "note" hlk hnone
  · rw [merge_vcards_note]; exact copyScalar_choice2_none instr "note" hlk hnone

theorem scalar_choice_missing_omits_witness :
    (merge_vcards orgLess orgFull (some [("org", "vcard1")])).org = none ∧
    orgFull.org = some "ACME" :=
  ⟨(scalar_choice_missing_omits orgLess orgFull [("org", "vcard1")]).1
      (by decide) rfl,
   rfl⟩
